import Mathlib

/-!
Verification of the utility-bot webhook dispatcher (src/index.js,
src/unnamed/part_000, src/unnamed/part_001) against its specification.

The JavaScript sources are shallowly embedded:

* JS strings that are only concatenated and signed (the timestamp header and
  the raw request body) are modeled as their UTF-8 byte lists (`List Nat`);
  strings inspected character by character (hex signatures, duration syntax)
  as `List Char` or `String`.
* Platform primitives are parameters: `crypto.verify` under the loaded
  Ed25519 key is an abstract `cv : PemKey → List Nat → List Nat → Bool`,
  `JSON.parse` an abstract `jsonParse`, and the Discord REST collaborator an
  abstract record of typed calls (`Api`).  Request bodies of outbound REST
  calls are not modeled; the trace of calls made (method and route) is.
* A thrown JS exception is `Except.error`; a total Lean function models code
  that never throws.
-/

/-- JSON option values that reach the handlers: strings, integers, booleans. -/
inductive JsVal where
  | str (s : String)
  | int (n : Int)
  | bool (b : Bool)
deriving DecidableEq, Repr

/-- JS truthiness of a value. -/
def jsTruthy : JsVal → Bool
  | .str s => !(s == "")
  | .int n => !(n == 0)
  | .bool b => b

/-- JS truthiness of a possibly-undefined value. -/
def jsTruthyOpt : Option JsVal → Bool
  | none => false
  | some v => jsTruthy v

/-- JS `a || b` for a possibly-undefined `a`. -/
def jsOrVal (a : Option JsVal) (b : JsVal) : JsVal :=
  match a with
  | some v => if jsTruthy v then v else b
  | none => b

/-- JS `a ?? b`. -/
def jsNullish (a : Option JsVal) (b : JsVal) : JsVal := a.getD b

/-- JS template-string rendering of a value. -/
def jsValToString : JsVal → String
  | .str s => s
  | .int n => toString n
  | .bool b => if b then "true" else "false"

/-- JS template-string rendering of a possibly-undefined value. -/
def jsValOptToString : Option JsVal → String
  | some v => jsValToString v
  | none => "undefined"

/-- JS truthiness of a possibly-undefined string (empty string is falsy). -/
def jsOptStrTruthy : Option String → Bool
  | none => false
  | some s => !(s == "")

/-- JS `a || b` on possibly-undefined strings, as in
`interaction.member?.user?.id || interaction.user?.id`. -/
def jsOrStr (a b : Option String) : Option String :=
  if jsOptStrTruthy a then a else b

/-- ASCII decimal digit test (the `\d` class of the JS regexes involved). -/
def isDigitChar (c : Char) : Bool := decide (48 ≤ c.toNat ∧ c.toNat ≤ 57)

/-- Numeric value of a decimal digit character. -/
def digitVal (c : Char) : Nat := c.toNat - 48

/-- Decimal value of a digit string, as `Number` computes it on a match. -/
def digitsVal (l : List Char) : Nat := l.foldl (fun a c => 10 * a + digitVal c) 0

/-- The whitespace class of the JS regex `\s` and of `String.prototype.trim`,
restricted to its ASCII members. -/
def isSpaceChar (c : Char) : Bool :=
  c.toNat == 32 || c.toNat == 9 || c.toNat == 10 || c.toNat == 13 ||
    c.toNat == 11 || c.toNat == 12

/-- ASCII lowering, modeling `String.prototype.toLowerCase` on the inputs the
bot handles. -/
def charToLower (c : Char) : Char :=
  if 65 ≤ c.toNat ∧ c.toNat ≤ 90 then Char.ofNat (c.toNat + 32) else c

/-- `String.prototype.toLowerCase` over the character list. -/
def jsToLower (l : List Char) : List Char := l.map charToLower

/-- `String.prototype.trim`: strip whitespace from both ends. -/
def jsTrim (l : List Char) : List Char :=
  ((l.dropWhile isSpaceChar).reverse.dropWhile isSpaceChar).reverse

/-- JS `Number(string)`, modeled for the decimal-integer strings the bot's
options carry; the empty or all-whitespace string coerces to 0, non-numeric
text to NaN (`none`). -/
def strToNumber (s : String) : Option Int :=
  match jsTrim s.data with
  | [] => some 0
  | '-' :: rest =>
      if rest ≠ [] ∧ rest.all isDigitChar then some (-(Int.ofNat (digitsVal rest)))
      else none
  | l =>
      if l.all isDigitChar then some (Int.ofNat (digitsVal l)) else none

/-- JS `Number(v)` on an option value; `none` is NaN. -/
def jsNumber : JsVal → Option Int
  | .str s => strToNumber s
  | .int n => some n
  | .bool b => some (if b then 1 else 0)

/-- Numeric coercion of a possibly-undefined value (`Number(undefined)` is
NaN). -/
def jsNumberOpt : Option JsVal → Option Int
  | none => none
  | some v => jsNumber v

/-- JS truthiness of a number (0 and NaN are falsy). -/
def jsNumTruthy : Option Int → Bool
  | none => false
  | some n => !(n == 0)

/-- JS `x < b` on a number that may be NaN (all NaN comparisons are false). -/
def jsNumLt (a : Option Int) (b : Int) : Bool :=
  match a with
  | none => false
  | some n => decide (n < b)

/-- JS `x > b` on a number that may be NaN. -/
def jsNumGt (a : Option Int) (b : Int) : Bool :=
  match a with
  | none => false
  | some n => decide (b < n)

/-- `Math.min(k, x)` (NaN propagates). -/
def jsMathMin (k : Int) : Option Int → Option Int
  | none => none
  | some n => some (min k n)

/-- Multiplication of a possibly-NaN number by a constant. -/
def jsNumMul (a : Option Int) (k : Int) : Option Int := a.map (· * k)

/-- Template rendering of a JS number. -/
def jsNumToString : Option Int → String
  | none => "NaN"
  | some n => toString n

/-- JS `BigInt(string)`: throws on strings that are not integer numerals (an
empty or all-whitespace string is 0n). -/
def jsBigInt (s : String) : Except String Int :=
  match jsTrim s.data with
  | [] => .ok 0
  | '-' :: rest =>
      if rest ≠ [] ∧ rest.all isDigitChar then .ok (-(Int.ofNat (digitsVal rest)))
      else .error ("Cannot convert " ++ s ++ " to a BigInt")
  | l =>
      if l.all isDigitChar then .ok (Int.ofNat (digitsVal l))
      else .error ("Cannot convert " ++ s ++ " to a BigInt")

/-- `String.prototype.slice(0, n)` at character granularity. -/
def sliceTo (n : Nat) (s : String) : String := String.mk (s.data.take n)

/-- Value of one hex digit, if the character is one. -/
def hexDigitVal (c : Char) : Option Nat :=
  if 48 ≤ c.toNat ∧ c.toNat ≤ 57 then some (c.toNat - 48)
  else if 97 ≤ c.toNat ∧ c.toNat ≤ 102 then some (c.toNat - 87)
  else if 65 ≤ c.toNat ∧ c.toNat ≤ 70 then some (c.toNat - 55)
  else none

/-- Node's `Buffer.from(s, "hex")`: decode pairs of hex digits, truncating at
the first invalid pair (a trailing odd digit is dropped). -/
def nodeHexDecode : List Char → List Nat
  | c1 :: c2 :: rest =>
      match hexDigitVal c1, hexDigitVal c2 with
      | some hi, some lo => (16 * hi + lo) :: nodeHexDecode rest
      | _, _ => []
  | _ => []

/-- Lower-case hex digit for a value below 16. -/
def hexDigitChar (n : Nat) : Char :=
  if n < 10 then Char.ofNat (48 + n) else Char.ofNat (87 + n)

/-- Lower-case hex rendering of a byte list. -/
def hexEncode : List Nat → List Char
  | [] => []
  | b :: rest => hexDigitChar (b / 16) :: hexDigitChar (b % 16) :: hexEncode rest

/-- A verifier-ready public-key object, modeled by its SubjectPublicKeyInfo
DER bytes (the base64/PEM armor the sources put around these bytes is an
injective re-encoding and is not modeled further). -/
structure PemKey where
  der : List Nat
deriving DecidableEq, Repr

/-- DER header `302a300506032b6570032100` of an Ed25519
SubjectPublicKeyInfo. -/
def spkiDerHeader : List Nat :=
  [0x30, 0x2a, 0x30, 0x05, 0x06, 0x03, 0x2b, 0x65, 0x70, 0x03, 0x21, 0x00]

/-- part_001 `publicKeyToPemFromHex`: hex-decode the configured key, insist on
exactly 32 bytes, and wrap it in the SPKI header; any other length throws. -/
def publicKeyToPemFromHex (hex : List Char) : Except String PemKey :=
  let key := nodeHexDecode hex
  if key.length ≠ 32 then
    .error "PUBLIC_KEY invalid. Must be 64 hex chars."
  else
    .ok ⟨spkiDerHeader ++ key⟩

/-- part_001 startup (lines 104-111): a missing or malformed `PUBLIC_KEY` is
caught and leaves `PUBLIC_KEY_PEM` null; the env default makes a missing
variable the empty string. -/
def part001LoadKey (envPublicKey : List Char) : Option PemKey :=
  if envPublicKey = [] then none
  else
    match publicKeyToPemFromHex envPublicKey with
    | .ok pem => some pem
    | .error _ => none

/-- part_001 `verifyDiscordRequest` (lines 113-120).  `cv` stands for
`crypto.verify(null, msg, crypto.createPublicKey(PUBLIC_KEY_PEM), sig)`; the
timestamp header and the raw body are UTF-8 byte lists, so
`Buffer.from(timestamp + rawBody)` is list append with no separator. -/
def verifyDiscordRequest (pem : Option PemKey)
    (cv : PemKey → List Nat → List Nat → Bool)
    (signatureHex : Option (List Char)) (timestamp : Option (List Nat))
    (rawBody : List Nat) : Bool :=
  match pem with
  | none => false
  | some k =>
      match signatureHex, timestamp with
      | some sig, some ts =>
          if sig = [] ∨ ts = [] then false
          else cv k (ts ++ rawBody) (nodeHexDecode sig)
      | _, _ => false

/-- State of the scan realizing the global regex `(\d+)\s*(d|h|m|s)` of
`parseDurationToMs`: outside any candidate match, inside a digit run, or in
the optional whitespace after a digit run. -/
inductive ScanState where
  | idle
  | digits (n : Nat)
  | spaces (n : Nat)
deriving DecidableEq, Repr

/-- Unit letters accepted by the duration syntax. -/
def isUnitChar (c : Char) : Bool :=
  c == 'd' || c == 'h' || c == 'm' || c == 's'

/-- One character of the left-to-right scan.  Greedy digits, then greedy
whitespace, then a unit letter emits a match; any other character abandons the
candidate, and a digit seen during the whitespace run restarts a candidate
exactly where the regex engine would retry. -/
def scanStep (acc : List (Nat × Char) × ScanState) (c : Char) :
    List (Nat × Char) × ScanState :=
  match acc with
  | (toks, .idle) =>
      if isDigitChar c then (toks, .digits (digitVal c)) else (toks, .idle)
  | (toks, .digits n) =>
      if isDigitChar c then (toks, .digits (10 * n + digitVal c))
      else if isSpaceChar c then (toks, .spaces n)
      else if isUnitChar c then (toks ++ [(n, c)], .idle)
      else (toks, .idle)
  | (toks, .spaces n) =>
      if isSpaceChar c then (toks, .spaces n)
      else if isUnitChar c then (toks ++ [(n, c)], .idle)
      else if isDigitChar c then (toks, .digits (digitVal c))
      else (toks, .idle)

/-- All matches of `(\d+)\s*(d|h|m|s)` in order; a candidate still pending at
end of input was never a match and is discarded. -/
def durationTokens (l : List Char) : List (Nat × Char) :=
  (l.foldl scanStep ([], .idle)).1

/-- Milliseconds contributed by one unit letter, as in the source's
`if (unit === "d") total += n * 24 * 60 * 60 * 1000; ...` chain. -/
def unitFactorMs (u : Char) : Nat :=
  if u = 'd' then 24 * 60 * 60 * 1000
  else if u = 'h' then 60 * 60 * 1000
  else if u = 'm' then 60 * 1000
  else 1000

/-- `parseDurationToMs` (src/index.js lines 283-301 and src/unnamed/part_001
lines 70-88, textually identical; part_000's `parseDurationMs` is the same
function): lower-case the trimmed input, sum every `(\d+)\s*(d|h|m|s)` match,
and return null when nothing matched or the total is 0. -/
def parseDurationToMs (input : Option JsVal) : Option Nat :=
  let raw := jsToLower (jsTrim (jsValToString (jsOrVal input (.str ""))).data)
  let toks := durationTokens raw
  let total := toks.foldl (fun acc t => acc + t.1 * unitFactorMs t.2) 0
  if toks = [] ∨ total = 0 then none else some total

/-- `snowflakeToDate`, reduced to the resulting `Date`'s epoch-millisecond
value; `BigInt(id) >> 22n` is floor division by 2 ^ 22, and `BigInt` throws on
a non-numeric id. -/
def snowflakeToDate (id : String) : Except String Int :=
  (jsBigInt id).map (fun n => Int.fdiv n (2 ^ 22) + 1420070400000)

/-- One entry of an interaction's `data.options` array (setup subcommands
carry nested options). -/
inductive IOption where
  | mk (name : String) (value : Option JsVal) (options : List IOption)
deriving Repr

def IOption.name : IOption → String
  | .mk n _ _ => n

def IOption.value : IOption → Option JsVal
  | .mk _ v _ => v

def IOption.options : IOption → List IOption
  | .mk _ _ o => o

/-- The `data` member of an interaction payload. -/
structure InteractionData where
  name : Option String
  options : Option (List IOption)
deriving Repr

/-- The parsed interaction payload, with the fields the routers and handlers
read.  `member_user_id` and `user_id` stand for `member?.user?.id` and
`user?.id`. -/
structure Interaction where
  type : Int
  data : Option InteractionData
  guild_id : Option String
  channel_id : Option String
  member_user_id : Option String
  user_id : Option String
deriving Repr

/-- part_001 `getOption` (lines 60-63): `interaction.data?.options || []`,
find by name, take `?.value`. -/
def getOption (i : Interaction) (name : String) : Option JsVal :=
  (((i.data.bind InteractionData.options).getD []).find?
    (fun o => o.name == name)).bind IOption.value

/-- `interaction.member?.user?.id || interaction.user?.id` as rendered into a
template string (undefined renders as "undefined"). -/
def invokerId (i : Interaction) : String :=
  match jsOrStr i.member_user_id i.user_id with
  | some s => s
  | none => "undefined"

/-- An interaction response envelope: `{type: 1}` for PONG, or
`{type: 4, data: {content, flags?}}` where the 64 flag is the ephemeral
bit. -/
structure InteractionResponse where
  type : Int
  content : Option String
  ephemeral : Bool
deriving DecidableEq, Repr

/-- part_001 `reply` (lines 57-59). -/
def reply (content : String) (ephemeral : Bool) : InteractionResponse :=
  ⟨4, some content, ephemeral⟩

/-- Method and route of one outbound Discord REST call (request bodies are
not modeled). -/
structure ApiCall where
  method : String
  route : String
deriving DecidableEq, Repr

/-- The ordered list of REST calls a handler run performed. -/
abbrev Trace := List ApiCall

/-- Fields of a Discord user object read by the handlers. -/
structure UserObj where
  id : String
  username : String
  avatar : Option String
deriving DecidableEq, Repr

/-- Fields of a Discord guild object read by the handlers. -/
structure GuildObj where
  id : String
  name : String
  owner_id : String
  premium_subscription_count : Option Int
  premium_tier : Option Int
  approximate_member_count : Option Int
deriving DecidableEq, Repr

/-- Fields of a Discord guild-member object read by the handlers; the
`joined_at` ISO timestamp is modeled by its epoch-millisecond value. -/
structure MemberObj where
  user : UserObj
  joined_at : Option Int
  roles : List String
deriving DecidableEq, Repr

/-- Fields of a Discord message object read by the purge handlers
(`authorIsBot` is the truthiness of `m.author?.bot`). -/
structure MsgObj where
  id : String
  authorIsBot : Bool
deriving DecidableEq, Repr

/-- The Discord REST collaborator (`discordApi`), as a record of typed calls;
`.error` models a thrown `Discord API error`. -/
structure Api where
  getGuild : String → Except String GuildObj
  getMember : String → String → Except String MemberObj
  getUser : String → Except String UserObj
  getMessages : String → Option Int → Except String (List MsgObj)
  bulkDelete : String → List String → Except String Unit
  postMessage : String → String → Except String Unit
  patchMember : String → String → Except String Unit
  deleteMember : String → String → Except String Unit
  putBan : String → String → Except String Unit

/-- part_001 per-guild config entry (lines 38-41). -/
structure GuildCfg where
  log_channel_id : Option JsVal
deriving DecidableEq, Repr

/-- The `config.guilds` map, as an association list. -/
abbrev Config := List (String × GuildCfg)

/-- part_001 `guildCfg`: look the guild up, inserting the default entry on
first touch (`config.guilds[guildId] ||= { log_channel_id: null }`). -/
def guildCfg (cfg : Config) (gid : String) : Config × GuildCfg :=
  match cfg.lookup gid with
  | some e => (cfg, e)
  | none => (cfg ++ [(gid, ⟨none⟩)], ⟨none⟩)

/-- Mutation `cfg.log_channel_id = channelId` followed by `saveConfig` (the
file write itself is not modeled). -/
def setLogChannel (cfg : Config) (gid : String) (v : Option JsVal) : Config :=
  ((guildCfg cfg gid).1).map (fun p => if p.1 == gid then (p.1, ⟨v⟩) else p)

/-- part_001 `sendLog` (lines 149-155): nothing when no log channel is set,
otherwise a fire-and-forget message post whose failure is swallowed. -/
def sendLog (cfg : Config) (gid : String) (content : String) : Config × Trace :=
  let r := guildCfg cfg gid
  if jsTruthyOpt r.2.log_channel_id then
    (r.1, [⟨"POST", "/channels/" ++ jsValOptToString r.2.log_channel_id ++ "/messages"⟩])
  else (r.1, [])

/-- Result of one routed interaction: the config as possibly mutated, the
trace of REST calls, and either the response envelope or the exception that
escaped. -/
structure RouteOut (C : Type) where
  cfg : C
  calls : Trace
  result : Except String InteractionResponse
deriving Repr

/-- part_001 `handleServerInfo` (lines 289-309). -/
def handleServerInfo (api : Api) (cfg : Config) (i : Interaction) : RouteOut Config :=
  if !(jsOptStrTruthy i.guild_id) then
    ⟨cfg, [], .ok (reply "Run this inside a server." true)⟩
  else
    let g := i.guild_id.getD ""
    let call : ApiCall := ⟨"GET", "/guilds/" ++ g ++ "?with_counts=true"⟩
    match api.getGuild g with
    | .error e => ⟨cfg, [call], .error e⟩
    | .ok gd =>
        match snowflakeToDate gd.id with
        | .error e => ⟨cfg, [call], .error e⟩
        | .ok createdMs =>
            let boosts := gd.premium_subscription_count.getD 0
            let tier := gd.premium_tier.getD 0
            let members := match gd.approximate_member_count with
              | some n => toString n
              | none => "Unknown"
            ⟨cfg, [call], .ok (reply
              ("**🏰 " ++ gd.name ++ "**\n" ++
               "Owner: <@" ++ gd.owner_id ++ ">\n" ++
               "Created: <t:" ++ toString (Int.fdiv createdMs 1000) ++ ":F>\n" ++
               "Members: **" ++ members ++ "**\n" ++
               "Boosts: **" ++ toString boosts ++ "** (Tier " ++ toString tier ++ ")\n" ++
               "Guild ID: `" ++ gd.id ++ "`") false)⟩

/-- part_001 `handleUserInfo` (lines 311-332). -/
def handleUserInfo (api : Api) (cfg : Config) (i : Interaction) : RouteOut Config :=
  if !(jsOptStrTruthy i.guild_id) then
    ⟨cfg, [], .ok (reply "Run this inside a server." true)⟩
  else
    let g := i.guild_id.getD ""
    let uid := jsValOptToString (getOption i "user")
    let call : ApiCall := ⟨"GET", "/guilds/" ++ g ++ "/members/" ++ uid⟩
    match api.getMember g uid with
    | .error e => ⟨cfg, [call], .error e⟩
    | .ok mem =>
        match snowflakeToDate mem.user.id with
        | .error e => ⟨cfg, [call], .error e⟩
        | .ok createdMs =>
            let joinedLine := match mem.joined_at with
              | some jms => "Joined server: <t:" ++ toString (Int.fdiv jms 1000) ++ ":F>"
              | none => "Joined server: Unknown"
            ⟨cfg, [call], .ok (reply
              ("**👤 " ++ mem.user.username ++ "**\n" ++
               "ID: `" ++ mem.user.id ++ "`\n" ++
               "Account created: <t:" ++ toString (Int.fdiv createdMs 1000) ++ ":F>\n" ++
               joinedLine ++ "\n" ++
               "Roles: **" ++ toString mem.roles.length ++ "**") true)⟩

/-- part_001 `handleAvatar` (lines 334-346). -/
def handleAvatar (api : Api) (cfg : Config) (i : Interaction) : RouteOut Config :=
  let uid := jsValOptToString (getOption i "user")
  let call : ApiCall := ⟨"GET", "/users/" ++ uid⟩
  match api.getUser uid with
  | .error e => ⟨cfg, [call], .error e⟩
  | .ok u =>
      let avatarTruthy := jsOptStrTruthy u.avatar
      let isGif := avatarTruthy && (u.avatar.getD "").startsWith "a_"
      let fileExt := if isGif then "gif" else "png"
      let url := if avatarTruthy then
          "https://cdn.discordapp.com/avatars/" ++ u.id ++ "/" ++ u.avatar.getD "" ++
            "." ++ fileExt ++ "?size=1024"
        else "No avatar."
      ⟨cfg, [call], .ok (reply ("**🖼️ " ++ u.username ++ "\x27s avatar**\n" ++ url) true)⟩

/-- part_001 `handlePurge` (lines 348-367): truthy guild and channel required,
then the count (already coerced by `Number(... || 0)`) must be a truthy number
in [1, 100] before any REST call happens. -/
def handlePurge (api : Api) (cfg : Config) (i : Interaction) : RouteOut Config :=
  let count := jsNumber (jsOrVal (getOption i "count") (.int 0))
  if !(jsOptStrTruthy i.guild_id) || !(jsOptStrTruthy i.channel_id) then
    ⟨cfg, [], .ok (reply "Run this in a server channel." true)⟩
  else if !(jsNumTruthy count) || jsNumLt count 1 || jsNumGt count 100 then
    ⟨cfg, [], .ok (reply "Count must be 1-100." true)⟩
  else
    let ch := i.channel_id.getD ""
    let call : ApiCall := ⟨"GET", "/channels/" ++ ch ++ "/messages?limit=" ++ jsNumToString count⟩
    match api.getMessages ch count with
    | .error e => ⟨cfg, [call], .error e⟩
    | .ok msgs =>
        let ids := msgs.map MsgObj.id
        if ids.length = 0 then ⟨cfg, [call], .ok (reply "Nothing to delete." true)⟩
        else
          let bd : ApiCall := ⟨"POST", "/channels/" ++ ch ++ "/messages/bulk-delete"⟩
          match api.bulkDelete ch ids with
          | .error _ =>
              ⟨cfg, [call, bd], .ok (reply
                "⚠️ Could not bulk delete (messages may be older than 14 days or missing perms)." true)⟩
          | .ok _ =>
              let lg := sendLog cfg (i.guild_id.getD "")
                ("🧹 Purge: deleted " ++ toString ids.length ++ " messages in <#" ++ ch ++
                  "> by <@" ++ invokerId i ++ ">")
              ⟨lg.1, [call, bd] ++ lg.2, .ok (reply
                ("🧹 Deleted **" ++ toString ids.length ++ "** message(s).") true)⟩

/-- part_001 `handleSetup` (lines 369-396). -/
def handleSetup (cfg : Config) (i : Interaction) : RouteOut Config :=
  if !(jsOptStrTruthy i.guild_id) then
    ⟨cfg, [], .ok (reply "Run this inside a server." true)⟩
  else
    let g := i.guild_id.getD ""
    let sub := ((i.data.bind InteractionData.options).bind List.head?).map IOption.name
    let gc := guildCfg cfg g
    if sub == some "view" || !(jsOptStrTruthy sub) then
      ⟨gc.1, [], .ok (reply
        ("**⚙️ Setup — Current Settings**\n" ++
         "Log channel: " ++
           (if jsTruthyOpt gc.2.log_channel_id then
              "<#" ++ jsValOptToString gc.2.log_channel_id ++ ">"
            else "Not set") ++
         "\n\n" ++
         "Use `/setup logs channel:#your-channel` to set it.") true)⟩
    else if sub == some "logs" then
      let channelId := (((((i.data.bind InteractionData.options).bind List.head?).map
        IOption.options).getD []).find? (fun o => o.name == "channel")).bind IOption.value
      ⟨setLogChannel gc.1 g channelId, [], .ok (reply
        ("✅ Log channel set to <#" ++ jsValOptToString channelId ++ ">") true)⟩
    else
      ⟨gc.1, [], .ok (reply "Unknown setup option." true)⟩

/-- part_001 `handleKick` (lines 398-407). -/
def handleKick (api : Api) (cfg : Config) (i : Interaction) : RouteOut Config :=
  let userId := getOption i "user"
  let reason := jsValToString (jsOrVal (getOption i "reason") (.str "No reason provided."))
  if !(jsOptStrTruthy i.guild_id) || !(jsTruthyOpt userId) then
    ⟨cfg, [], .ok (reply "Missing guild/user." true)⟩
  else
    let g := i.guild_id.getD ""
    let uid := jsValOptToString userId
    let call : ApiCall := ⟨"DELETE", "/guilds/" ++ g ++ "/members/" ++ uid⟩
    match api.deleteMember g uid with
    | .error e => ⟨cfg, [call], .error e⟩
    | .ok _ =>
        let lg := sendLog cfg g ("👢 Kicked: <@" ++ uid ++ "> • Reason: " ++ reason)
        ⟨lg.1, call :: lg.2, .ok (reply ("👢 Kicked <@" ++ uid ++ ">.") true)⟩

/-- part_001 `handleBan` (lines 409-419). -/
def handleBan (api : Api) (cfg : Config) (i : Interaction) : RouteOut Config :=
  let userId := getOption i "user"
  let deleteDays := jsNumber (jsNullish (getOption i "delete_days") (.int 0))
  let reason := jsValToString (jsOrVal (getOption i "reason") (.str "No reason provided."))
  if !(jsOptStrTruthy i.guild_id) || !(jsTruthyOpt userId) then
    ⟨cfg, [], .ok (reply "Missing guild/user." true)⟩
  else
    let g := i.guild_id.getD ""
    let uid := jsValOptToString userId
    let call : ApiCall := ⟨"PUT", "/guilds/" ++ g ++ "/bans/" ++ uid ++
      "?delete_message_seconds=" ++ jsNumToString (jsNumMul deleteDays 86400)⟩
    match api.putBan g uid with
    | .error e => ⟨cfg, [call], .error e⟩
    | .ok _ =>
        let lg := sendLog cfg g ("🔨 Banned: <@" ++ uid ++ "> • Deleted days: " ++
          jsNumToString deleteDays ++ " • Reason: " ++ reason)
        ⟨lg.1, call :: lg.2, .ok (reply ("🔨 Banned <@" ++ uid ++ ">.") true)⟩

/-- The guard `!ms || ms < 5_000 || ms > 28 * 24 * 60 * 60 * 1000` used by
both timeout handlers. -/
def timeoutDurationRejected : Option Nat → Bool
  | none => true
  | some ms => decide (ms < 5000) || decide (28 * 24 * 60 * 60 * 1000 < ms)

/-- part_001 `handleTimeout` (lines 421-445); `untimeout = true` skips the
duration check and clears the timeout. -/
def handleTimeout (api : Api) (cfg : Config) (i : Interaction) (untimeout : Bool) :
    RouteOut Config :=
  let userId := getOption i "user"
  let reason := jsValToString (jsOrVal (getOption i "reason") (.str "No reason provided."))
  if !(jsOptStrTruthy i.guild_id) || !(jsTruthyOpt userId) then
    ⟨cfg, [], .ok (reply "Missing guild/user." true)⟩
  else
    if untimeout = false ∧ timeoutDurationRejected (parseDurationToMs (getOption i "duration")) then
      ⟨cfg, [], .ok (reply "Invalid duration. Use like \"10m\", \"1h\", \"1d\". Max 28d." true)⟩
    else
      let g := i.guild_id.getD ""
      let uid := jsValOptToString userId
      let call : ApiCall := ⟨"PATCH", "/guilds/" ++ g ++ "/members/" ++ uid⟩
      match api.patchMember g uid with
      | .error e => ⟨cfg, [call], .error e⟩
      | .ok _ =>
          let msg := if untimeout then "✅ Timeout removed" else "⏳ Timed out"
          let lg := sendLog cfg g (msg ++ ": <@" ++ uid ++ "> • Reason: " ++ reason)
          ⟨lg.1, call :: lg.2, .ok (reply (msg ++ " <@" ++ uid ++ ">.") true)⟩

/-- The `/help` text of part_001 (lines 453-469). -/
def helpContent : String :=
  "**Utility Bot ✅**\n\n**Commands:**\n- `/ping`\n- `/help`\n- `/serverinfo`\n- `/userinfo user:`\n- `/avatar user:`\n- `/purge count:`\n- `/setup view` / `/setup logs channel:`\n- `/kick` `/ban` `/timeout` `/untimeout`"

/-- part_001 `routeInteraction` (lines 447-483): PING short-circuits before
anything else is read; otherwise dispatch on `interaction.data?.name` with an
ephemeral unknown-command fallback. -/
def routeInteraction (api : Api) (cfg : Config) (i : Interaction) : RouteOut Config :=
  if i.type = 1 then ⟨cfg, [], .ok ⟨1, none, false⟩⟩
  else if i.data.bind InteractionData.name = some "ping" then
    ⟨cfg, [], .ok (reply "🏓 Pong!" false)⟩
  else if i.data.bind InteractionData.name = some "help" then
    ⟨cfg, [], .ok (reply helpContent true)⟩
  else if i.data.bind InteractionData.name = some "serverinfo" then handleServerInfo api cfg i
  else if i.data.bind InteractionData.name = some "userinfo" then handleUserInfo api cfg i
  else if i.data.bind InteractionData.name = some "avatar" then handleAvatar api cfg i
  else if i.data.bind InteractionData.name = some "purge" then handlePurge api cfg i
  else if i.data.bind InteractionData.name = some "setup" then handleSetup cfg i
  else if i.data.bind InteractionData.name = some "kick" then handleKick api cfg i
  else if i.data.bind InteractionData.name = some "ban" then handleBan api cfg i
  else if i.data.bind InteractionData.name = some "timeout" then handleTimeout api cfg i false
  else if i.data.bind InteractionData.name = some "untimeout" then handleTimeout api cfg i true
  else ⟨cfg, [], .ok (reply "Unknown command. Try `/help`." true)⟩

/-- Wire shapes an HTTP response body can take here. -/
inductive HttpBody where
  | text (s : String)
  | jsonError (s : String)
  | jsonResponse (r : InteractionResponse)
deriving DecidableEq, Repr

/-- An HTTP response: status code plus body. -/
structure HttpResponse where
  status : Nat
  body : HttpBody
deriving DecidableEq, Repr

/-- An inbound HTTP request as the server reads it. -/
structure HttpRequest where
  method : String
  url : String
  signatureHeader : Option (List Char)
  timestampHeader : Option (List Nat)
  rawBody : List Nat

/-- The `req.on("end")` handler of part_001's POST /interactions route (lines
503-515): verify, `JSON.parse`, route; any exception thrown after the 401
check — decode failure or a handler throw — is caught and answered with a 500
`server error` JSON body.  `jsonParse` abstracts `JSON.parse` on the raw
bytes. -/
def handleInteractionsPost (pem : Option PemKey)
    (cv : PemKey → List Nat → List Nat → Bool)
    (jsonParse : List Nat → Except String Interaction) (api : Api)
    (cfg : Config) (signature : Option (List Char))
    (timestamp : Option (List Nat)) (raw : List Nat) :
    HttpResponse × Config × Trace :=
  if verifyDiscordRequest pem cv signature timestamp raw = false then
    (⟨401, .jsonError "invalid request signature"⟩, cfg, [])
  else
    match jsonParse raw with
    | .error _ => (⟨500, .jsonError "server error"⟩, cfg, [])
    | .ok i =>
        match routeInteraction api cfg i with
        | ⟨cfg', calls, .ok r⟩ => (⟨200, .jsonResponse r⟩, cfg', calls)
        | ⟨cfg', calls, .error _⟩ => (⟨500, .jsonError "server error"⟩, cfg', calls)

/-- part_001's request dispatcher (lines 488-516): GET / is the liveness and
key-status page, anything but POST /interactions is 404, POST /interactions
runs the verification pipeline. -/
def serverRespond (pem : Option PemKey)
    (cv : PemKey → List Nat → List Nat → Bool)
    (jsonParse : List Nat → Except String Interaction) (api : Api)
    (cfg : Config) (req : HttpRequest) : HttpResponse × Config × Trace :=
  if req.method = "GET" ∧ req.url = "/" then
    (⟨200, .text ("✅ Bot is running.\nStatus: " ++
      (match pem with | some _ => "OK" | none => "PUBLIC_KEY_ERROR") ++ "\n")⟩, cfg, [])
  else if ¬(req.method = "POST" ∧ req.url = "/interactions") then
    (⟨404, .text "Not found"⟩, cfg, [])
  else
    handleInteractionsPost pem cv jsonParse api cfg
      req.signatureHeader req.timestampHeader req.rawBody

namespace IndexJs

/-- src/index.js `ed25519PublicKeyPemFromHex` (lines 101-110): throws on a
configured key that is not exactly 32 bytes. -/
def ed25519PublicKeyPemFromHex (hex : List Char) : Except String PemKey :=
  let key := nodeHexDecode hex
  if key.length ≠ 32 then .error "PUBLIC_KEY must be 32 bytes hex"
  else .ok ⟨spkiDerHeader ++ key⟩

/-- src/index.js startup (lines 23-32 and 112): the process exits when any of
the three env vars is missing or empty, and the module-level
`ed25519PublicKeyPemFromHex` call throws — uncaught — on a malformed key.
`.error` means the process terminated before `server.listen` ever ran. -/
def startupPublicKey (token appId publicKey : Option (List Char)) :
    Except String PemKey :=
  match token, appId, publicKey with
  | some t, some a, some k =>
      if t = [] ∨ a = [] ∨ k = [] then
        .error "Missing env vars. Need DISCORD_TOKEN, CLIENT_ID, PUBLIC_KEY."
      else ed25519PublicKeyPemFromHex k
  | _, _, _ => .error "Missing env vars. Need DISCORD_TOKEN, CLIENT_ID, PUBLIC_KEY."

/-- src/index.js `verifyDiscordRequest` (lines 114-120): identical to
part_001's verifier except that the key is always loaded (startup would have
crashed otherwise). -/
def verifyDiscordRequest (k : PemKey) (cv : PemKey → List Nat → List Nat → Bool)
    (signatureHex : Option (List Char)) (timestamp : Option (List Nat))
    (rawBody : List Nat) : Bool :=
  match signatureHex, timestamp with
  | some sig, some ts =>
      if sig = [] ∨ ts = [] then false
      else cv k (ts ++ rawBody) (nodeHexDecode sig)
  | _, _ => false

/-- src/index.js `replyMessage` (lines 435-443); the handlers embedded here
pass no embeds. -/
def replyMessage (content : String) (ephemeral : Bool) : InteractionResponse :=
  ⟨4, some content, ephemeral⟩

/-- src/index.js per-guild automod settings with their `guildCfg`
defaults (lines 307-319). -/
structure AutomodSettings where
  anti_spam : Bool
  mention_spam : Bool
  mention_limit : Int
  block_invites : Bool
deriving DecidableEq, Repr

/-- src/index.js per-guild config entry. -/
structure GuildCfg where
  logging_channel_id : Option JsVal
  automod : AutomodSettings
  automod_rule_ids : List String
deriving DecidableEq, Repr

/-- The src/index.js `config.guilds` map. -/
abbrev Config := List (String × GuildCfg)

/-- The entry `guildCfg` creates on first touch. -/
def defaultGuildCfg : GuildCfg := ⟨none, ⟨true, true, 5, false⟩, []⟩

/-- src/index.js `guildCfg` (lines 307-319). -/
def guildCfg (cfg : Config) (gid : String) : Config × GuildCfg :=
  match cfg.lookup gid with
  | some e => (cfg, e)
  | none => (cfg ++ [(gid, defaultGuildCfg)], defaultGuildCfg)

/-- src/index.js `sendLog` (lines 321-329): fire-and-forget post to the
configured log channel, errors swallowed. -/
def sendLog (cfg : Config) (gid : String) (content : String) : Config × Trace :=
  let r := guildCfg cfg gid
  if jsTruthyOpt r.2.logging_channel_id then
    (r.1, [⟨"POST", "/channels/" ++ jsValOptToString r.2.logging_channel_id ++ "/messages"⟩])
  else (r.1, [])

/-- src/index.js `handlePurge` (lines 614-643).  The count option is only
checked for truthiness; a count above 100 is clamped by `Math.min(100, count)`
inside the messages fetch, not rejected. -/
def handlePurge (api : Api) (cfg : Config) (i : Interaction) : RouteOut Config :=
  let count := getOption i "count"
  let includeBots := getOption i "include_bots"
  let includeB := match includeBots with
    | some (.bool b) => b
    | _ => true
  if !(jsOptStrTruthy i.guild_id) || !(jsOptStrTruthy i.channel_id) || !(jsTruthyOpt count) then
    ⟨cfg, [], .ok (replyMessage "Missing channel/count." true)⟩
  else
    let ch := i.channel_id.getD ""
    let limit := jsMathMin 100 (jsNumberOpt count)
    let call : ApiCall := ⟨"GET", "/channels/" ++ ch ++ "/messages?limit=" ++ jsNumToString limit⟩
    match api.getMessages ch limit with
    | .error e => ⟨cfg, [call], .error e⟩
    | .ok msgs =>
        let ids := (msgs.filter (fun m => includeB || !m.authorIsBot)).map MsgObj.id
        if ids.length = 0 then
          ⟨cfg, [call], .ok (replyMessage "Nothing to delete (based on your filters)." true)⟩
        else
          let bd : ApiCall := ⟨"POST", "/channels/" ++ ch ++ "/messages/bulk-delete"⟩
          match api.bulkDelete ch ids with
          | .error _ =>
              ⟨cfg, [call, bd], .ok (replyMessage
                "⚠️ Could not bulk delete. Messages might be older than 14 days, or I lack permissions." true)⟩
          | .ok _ =>
              let lg := sendLog cfg (i.guild_id.getD "")
                ("🧹 Purge: deleted " ++ toString ids.length ++ " message(s) in <#" ++ ch ++
                  "> by <@" ++ invokerId i ++ ">")
              ⟨lg.1, [call, bd] ++ lg.2, .ok (replyMessage
                ("🧹 Deleted **" ++ toString ids.length ++ "** message(s).") true)⟩

/-- src/index.js `handleTimeout` (lines 547-574): same structure as
part_001's, different message texts. -/
def handleTimeout (api : Api) (cfg : Config) (i : Interaction) (untimeout : Bool) :
    RouteOut Config :=
  let userId := getOption i "user"
  let reason := jsValToString (jsOrVal (getOption i "reason") (.str "No reason provided."))
  if !(jsOptStrTruthy i.guild_id) || !(jsTruthyOpt userId) then
    ⟨cfg, [], .ok (replyMessage "Missing guild/user." true)⟩
  else
    if untimeout = false ∧ timeoutDurationRejected (parseDurationToMs (getOption i "duration")) then
      ⟨cfg, [], .ok (replyMessage "Invalid duration. Use like \"10m\", \"1h\", \"1d\". Max is 28d." true)⟩
    else
      let g := i.guild_id.getD ""
      let uid := jsValOptToString userId
      let call : ApiCall := ⟨"PATCH", "/guilds/" ++ g ++ "/members/" ++ uid⟩
      match api.patchMember g uid with
      | .error e => ⟨cfg, [call], .error e⟩
      | .ok _ =>
          let actionText := if untimeout then "✅ Timeout removed" else "⏳ User timed out"
          let lg := sendLog cfg g (actionText ++ ": <@" ++ uid ++ "> • Reason: " ++ reason)
          ⟨lg.1, call :: lg.2, .ok (replyMessage (actionText ++ " for <@" ++ uid ++ ">.") true)⟩

end IndexJs

namespace Gateway

/-- The two ways part_000's catch block responds: editing the prior deferred
acknowledgment, or sending a fresh ephemeral reply. -/
inductive FinalAction where
  | editReply (content : String)
  | replyEphemeral (content : String)
deriving DecidableEq, Repr

/-- Content of either action. -/
def FinalAction.content : FinalAction → String
  | .editReply c => c
  | .replyEphemeral c => c

/-- A JS exception as part_000's catch block sees it: the
`interaction.deferred || interaction.replied` state at throw time, and
`String(err.message || err)`. -/
structure JsErr where
  deferredOrReplied : Bool
  message : String
deriving DecidableEq, Repr

/-- part_000 `interactionCreate` error containment (lines 510-525): the try
body either completed its own reply (`.ok`) or threw; the catch edits the
deferred acknowledgment or sends one fresh ephemeral reply, both with the
error text truncated by `.slice(0, 1800)`, and the trailing `.catch(() => {})`
swallows any failure of that last-resort send, so nothing propagates. -/
def interactionCreate (run : Except JsErr Unit) : Option FinalAction :=
  match run with
  | .ok _ => none
  | .error e =>
      if e.deferredOrReplied then
        some (.editReply ("⚠️ Error: " ++ sliceTo 1800 e.message))
      else
        some (.replyEphemeral ("⚠️ Error: " ++ sliceTo 1800 e.message))

end Gateway

/-- An oracle whose every call fails, modeling a downstream REST API that
answers 403 to everything. -/
def apiStub : Api :=
  ⟨fun _ => .error "Discord API 403", fun _ _ => .error "Discord API 403",
   fun _ => .error "Discord API 403", fun _ _ => .error "Discord API 403",
   fun _ _ => .error "Discord API 403", fun _ _ => .error "Discord API 403",
   fun _ _ => .error "Discord API 403", fun _ _ => .error "Discord API 403",
   fun _ _ => .error "Discord API 403"⟩

/-- A syntactically well-formed 32-byte key object for fixtures. -/
def pemStub : PemKey := ⟨spkiDerHeader ++ List.replicate 32 0⟩

/-- A crypto oracle that accepts everything; used only to drive concrete
requests past the signature gate in closed counterexamples. -/
def cvAcceptAll : PemKey → List Nat → List Nat → Bool := fun _ _ _ => true

/-- A PING interaction carrying junk data and a malformed-looking options
array: type 1 must win regardless. -/
def pingFixture : Interaction :=
  ⟨1, some ⟨some "purge", some [⟨"count", some (.int 999), []⟩]⟩,
   none, none, none, none⟩

/-- A well-formed `/kick` invocation from guild g1 / channel c1. -/
def kickFixture : Interaction :=
  ⟨2, some ⟨some "kick", some [⟨"user", some (.str "42"), []⟩]⟩,
   some "g1", some "c1", some "u9", none⟩

/-- A `/ban` invocation used to witness the containment theorem. -/
def banFixture : Interaction :=
  ⟨2, some ⟨some "ban", some [⟨"user", some (.str "77"), []⟩]⟩,
   some "g2", some "c2", some "u1", none⟩

/-- An interaction whose command name matches nothing registered. -/
def unknownFixture : Interaction :=
  ⟨2, some ⟨some "frobnicate", some []⟩, some "g1", some "c1", some "u9", none⟩

/-- A `/purge` invocation with `count = 101`. -/
def purge101Fixture : Interaction :=
  ⟨2, some ⟨some "purge", some [⟨"count", some (.int 101), []⟩]⟩,
   some "g1", some "c1", some "u9", none⟩

/-- A `/timeout` invocation with the too-short duration "3s". -/
def timeout3sFixture : Interaction :=
  ⟨2, some ⟨some "timeout",
    some [⟨"user", some (.str "42"), []⟩, ⟨"duration", some (.str "3s"), []⟩]⟩,
   some "g1", some "c1", some "u9", none⟩

/-- A `/timeout` invocation with the too-long duration "29d". -/
def timeout29dFixture : Interaction :=
  ⟨2, some ⟨some "timeout",
    some [⟨"user", some (.str "42"), []⟩, ⟨"duration", some (.str "29d"), []⟩]⟩,
   some "g1", some "c1", some "u9", none⟩

/-- The command names part_001's router dispatches on. -/
def registeredNames : List String :=
  ["ping", "help", "serverinfo", "userinfo", "avatar", "purge", "setup",
   "kick", "ban", "timeout", "untimeout"]

/-- A `/timeout` invocation with the in-range duration "10m". -/
def timeout10mFixture : Interaction :=
  ⟨2, some ⟨some "timeout",
    some [⟨"user", some (.str "42"), []⟩, ⟨"duration", some (.str "10m"), []⟩]⟩,
   some "g1", some "c1", some "u9", none⟩

/-- A `/purge` invocation with `count = 0`. -/
def purge0Fixture : Interaction :=
  ⟨2, some ⟨some "purge", some [⟨"count", some (.int 0), []⟩]⟩,
   some "g1", some "c1", some "u9", none⟩

/-- A `/purge` invocation with `count = 1`. -/
def purge1Fixture : Interaction :=
  ⟨2, some ⟨some "purge", some [⟨"count", some (.int 1), []⟩]⟩,
   some "g1", some "c1", some "u9", none⟩

/-- A `/purge` invocation with `count = 100`. -/
def purge100Fixture : Interaction :=
  ⟨2, some ⟨some "purge", some [⟨"count", some (.int 100), []⟩]⟩,
   some "g1", some "c1", some "u9", none⟩

/-- A `/purge` invocation with the non-integer count "abc". -/
def purgeAbcFixture : Interaction :=
  ⟨2, some ⟨some "purge", some [⟨"count", some (.str "abc"), []⟩]⟩,
   some "g1", some "c1", some "u9", none⟩

/-- Characters that can never participate in a duration token: not a digit,
not whitespace, not a unit letter. -/
def unrecognizedChar (c : Char) : Bool :=
  !(isDigitChar c) && !(isSpaceChar c) && !(isUnitChar c)

theorem hexDigitVal_hexDigitChar : ∀ n, n < 16 → hexDigitVal (hexDigitChar n) = some n := by
  decide

theorem nodeHexDecode_hexEncode_append (l : List Nat) (t : List Char)
    (hb : ∀ b ∈ l, b < 256) :
    nodeHexDecode (hexEncode l ++ t) = l ++ nodeHexDecode t := by
  induction l with
  | nil => simp [hexEncode]
  | cons b rest ih =>
      have hb0 : b < 256 := hb b (by simp)
      have h1 : b / 16 < 16 := (Nat.div_lt_iff_lt_mul (by norm_num)).2 (by omega)
      have h2 : b % 16 < 16 := Nat.mod_lt _ (by norm_num)
      simp only [hexEncode, List.cons_append, nodeHexDecode,
        hexDigitVal_hexDigitChar _ h1, hexDigitVal_hexDigitChar _ h2]
      rw [Nat.div_add_mod b 16]
      exact congrArg (b :: ·) (ih (fun x hx => hb x (by simp [hx])))

theorem nodeHexDecode_hexEncode (l : List Nat) (hb : ∀ b ∈ l, b < 256) :
    nodeHexDecode (hexEncode l) = l := by
  have h := nodeHexDecode_hexEncode_append l [] hb
  simpa [nodeHexDecode] using h

theorem hexEncode_ne_nil {l : List Nat} (h : l ≠ []) : hexEncode l ≠ [] := by
  cases l with
  | nil => simp at h
  | cons b rest => simp [hexEncode]

theorem set_bytes_bound {l : List Nat} (i : Nat) {b : Nat} (hl : ∀ x ∈ l, x < 256)
    (hb : b < 256) : ∀ x ∈ l.set i b, x < 256 := by
  intro x hx
  rcases List.mem_or_eq_of_mem_set hx with h | h
  · exact hl x h
  · omega

theorem set_ne_of_getElem_ne {l : List Nat} {i b : Nat}
    (hi : i < l.length) (hb : b ≠ l[i]) : l.set i b ≠ l := by
  intro he
  apply hb
  have h2 : (l.set i b)[i]? = some b := List.getElem?_set_self hi
  rw [he, List.getElem?_eq_getElem hi] at h2
  exact (Option.some_inj.mp h2).symm

theorem set_ne_nil_of_lt {l : List Nat} {i b : Nat} (hi : i < l.length) :
    l.set i b ≠ [] := by
  intro h
  have h0 : (l.set i b).length = l.length := List.length_set l i b
  rw [h] at h0
  simp at h0
  omega

theorem unitFactorMs_pos (u : Char) : 0 < unitFactorMs u := by
  unfold unitFactorMs
  split
  · norm_num
  · split
    · norm_num
    · split <;> norm_num

theorem isUnitChar_elim {c : Char} (h : isUnitChar c = true) :
    c = 'd' ∨ c = 'h' ∨ c = 'm' ∨ c = 's' := by
  simpa [isUnitChar, or_assoc] using h

theorem unit_not_digit {c : Char} (h : isUnitChar c = true) : isDigitChar c = false := by
  rcases isUnitChar_elim h with rfl | rfl | rfl | rfl <;> decide

theorem unit_not_space {c : Char} (h : isUnitChar c = true) : isSpaceChar c = false := by
  rcases isUnitChar_elim h with rfl | rfl | rfl | rfl <;> decide

theorem charToLower_unit {c : Char} (h : isUnitChar c = true) : charToLower c = c := by
  rcases isUnitChar_elim h with rfl | rfl | rfl | rfl <;> decide

theorem digit_not_space {c : Char} (h : isDigitChar c = true) : isSpaceChar c = false := by
  simp only [isDigitChar, decide_eq_true_eq] at h
  simp only [isSpaceChar, Bool.or_eq_false_iff, beq_eq_false_iff_ne, ne_eq]
  omega

theorem charToLower_digit {c : Char} (h : isDigitChar c = true) : charToLower c = c := by
  simp only [isDigitChar, decide_eq_true_eq] at h
  simp only [charToLower]
  rw [if_neg (by omega)]

theorem dropWhile_eq_self_of_none (p : Char → Bool) (l : List Char)
    (h : ∀ c ∈ l, p c = false) : l.dropWhile p = l := by
  cases l with
  | nil => rfl
  | cons c rest =>
      rw [List.dropWhile_cons_of_neg]
      simp [h c (by simp)]

theorem jsTrim_eq_self (l : List Char) (h : ∀ c ∈ l, isSpaceChar c = false) :
    jsTrim l = l := by
  unfold jsTrim
  rw [dropWhile_eq_self_of_none _ _ h,
    dropWhile_eq_self_of_none _ _ (fun c hc => h c (List.mem_reverse.mp hc)),
    List.reverse_reverse]

theorem jsToLower_fixes (l : List Char) (h : ∀ c ∈ l, charToLower c = c) :
    jsToLower l = l := by
  unfold jsToLower
  induction l with
  | nil => rfl
  | cons c rest ih =>
      simp only [List.map_cons, h c (by simp)]
      rw [ih (fun c hc => h c (by simp [hc]))]

theorem foldl_scanStep_unrecognized (g : List Char)
    (hg : ∀ c ∈ g, unrecognizedChar c = true) (toks : List (Nat × Char)) :
    g.foldl scanStep (toks, .idle) = (toks, .idle) := by
  induction g with
  | nil => rfl
  | cons c rest ih =>
      have hc := hg c (by simp)
      simp only [unrecognizedChar, Bool.and_eq_true, Bool.not_eq_true'] at hc
      simp only [List.foldl_cons, scanStep, hc.1.1, Bool.false_eq_true, if_false]
      exact ih (fun x hx => hg x (by simp [hx]))

theorem foldl_scanStep_digits (ds : List Char) (hds : ∀ c ∈ ds, isDigitChar c = true) :
    ∀ (toks : List (Nat × Char)) (n : Nat),
      ds.foldl scanStep (toks, .digits n) =
        (toks, .digits (ds.foldl (fun a c => 10 * a + digitVal c) n)) := by
  induction ds with
  | nil => intro toks n; rfl
  | cons c rest ih =>
      intro toks n
      have hc := hds c (by simp)
      simp only [List.foldl_cons, scanStep, hc, if_true]
      exact ih (fun x hx => hds x (by simp [hx])) toks _

/-- C8: the duration parser sums repeated magnitude+unit tokens:
"1d2h30m" parses to (1 * 86400 + 2 * 3600 + 30 * 60) seconds' worth of
milliseconds, while "abc" (no recognized token) and "0m" (zero total) parse
to null. -/
theorem duration_parser_examples :
    parseDurationToMs (some (.str "1d2h30m")) =
      some ((1 * 86400 + 2 * 3600 + 30 * 60) * 1000)
    ∧ parseDurationToMs (some (.str "abc")) = none
    ∧ parseDurationToMs (some (.str "0m")) = none := by
  refine ⟨by decide, by decide, by decide⟩

/-- C5: a type-1 (Ping) interaction always routes to the `{type: 1}` Pong
envelope, whatever every other field holds — the router returns before reading
`data`, so command lookup and option handling are bypassed entirely: no REST
call happens and the config is untouched. -/
theorem ping_short_circuits_to_pong (api : Api) (cfg : Config) (i : Interaction)
    (h : i.type = 1) :
    routeInteraction api cfg i = ⟨cfg, [], .ok ⟨1, none, false⟩⟩ := by
  unfold routeInteraction
  rw [if_pos h]

/-- C5 witness: a concrete Ping that carries junk command data and a
malformed-looking options array still yields exactly Pong. -/
theorem ping_short_circuits_to_pong_witness :
    routeInteraction apiStub [] pingFixture = ⟨[], [], .ok ⟨1, none, false⟩⟩ :=
  ping_short_circuits_to_pong apiStub [] pingFixture rfl

/-- C9: in both timeout handlers (src/unnamed/part_001 and src/index.js), a
duration that parses to fewer than 5000 milliseconds is rejected with the very
same ephemeral validation envelope as an over-28-day duration, before any REST
call; a duration within [5000 ms, 28 days] proceeds to the PATCH call, so the
handlers enforce a 5-second minimum the spec does not state. -/
theorem timeout_minimum_bound_5s
    (api : Api) (cfg : Config) (icfg : IndexJs.Config) (i i2 i3 : Interaction)
    (hg : jsOptStrTruthy i.guild_id = true) (hu : jsTruthyOpt (getOption i "user") = true)
    (ms : Nat) (hms : parseDurationToMs (getOption i "duration") = some ms)
    (hlt : ms < 5000)
    (hg2 : jsOptStrTruthy i2.guild_id = true) (hu2 : jsTruthyOpt (getOption i2 "user") = true)
    (ms2 : Nat) (hms2 : parseDurationToMs (getOption i2 "duration") = some ms2)
    (hgt : 28 * 24 * 60 * 60 * 1000 < ms2)
    (hg3 : jsOptStrTruthy i3.guild_id = true) (hu3 : jsTruthyOpt (getOption i3 "user") = true)
    (ms3 : Nat) (hms3 : parseDurationToMs (getOption i3 "duration") = some ms3)
    (hge3 : 5000 ≤ ms3) (hle3 : ms3 ≤ 28 * 24 * 60 * 60 * 1000) :
    handleTimeout api cfg i false =
      ⟨cfg, [], .ok (reply "Invalid duration. Use like \"10m\", \"1h\", \"1d\". Max 28d." true)⟩
    ∧ handleTimeout api cfg i2 false =
      ⟨cfg, [], .ok (reply "Invalid duration. Use like \"10m\", \"1h\", \"1d\". Max 28d." true)⟩
    ∧ IndexJs.handleTimeout api icfg i false =
      ⟨icfg, [], .ok (IndexJs.replyMessage
        "Invalid duration. Use like \"10m\", \"1h\", \"1d\". Max is 28d." true)⟩
    ∧ (handleTimeout api cfg i3 false).calls.head? =
        some ⟨"PATCH", "/guilds/" ++ i3.guild_id.getD "" ++ "/members/" ++
          jsValOptToString (getOption i3 "user")⟩ := by
  refine ⟨?_, ?_, ?_, ?_⟩
  · simp only [handleTimeout]
    rw [if_neg (by simp [hg, hu]),
      if_pos ⟨trivial, by rw [hms]; simp [timeoutDurationRejected, hlt]⟩]
  · simp only [handleTimeout]
    rw [if_neg (by simp [hg2, hu2]),
      if_pos ⟨trivial, by rw [hms2]; simp [timeoutDurationRejected, hgt]⟩]
  · simp only [IndexJs.handleTimeout]
    rw [if_neg (by simp [hg, hu]),
      if_pos ⟨trivial, by rw [hms]; simp [timeoutDurationRejected, hlt]⟩]
  · simp only [handleTimeout]
    rw [if_neg (by simp [hg3, hu3])]
    split
    · rename_i h
      have h2 := h.2
      rw [hms3] at h2
      simp only [timeoutDurationRejected, Bool.or_eq_true, decide_eq_true_eq] at h2
      omega
    · split
      · rfl
      · rfl

/-- C9 witness: "3s" (3000 ms) is rejected exactly like "29d", with no REST
call made, and "10m" proceeds to the PATCH. -/
theorem timeout_minimum_bound_5s_witness :
    handleTimeout apiStub [] timeout3sFixture false =
      ⟨[], [], .ok (reply "Invalid duration. Use like \"10m\", \"1h\", \"1d\". Max 28d." true)⟩
    ∧ handleTimeout apiStub [] timeout29dFixture false =
      ⟨[], [], .ok (reply "Invalid duration. Use like \"10m\", \"1h\", \"1d\". Max 28d." true)⟩
    ∧ IndexJs.handleTimeout apiStub [] timeout3sFixture false =
      ⟨[], [], .ok (IndexJs.replyMessage
        "Invalid duration. Use like \"10m\", \"1h\", \"1d\". Max is 28d." true)⟩
    ∧ (handleTimeout apiStub [] timeout10mFixture false).calls.head? =
        some ⟨"PATCH", "/guilds/" ++ "g1" ++ "/members/" ++ "42"⟩ := by
  have h := timeout_minimum_bound_5s apiStub [] [] timeout3sFixture timeout29dFixture
    timeout10mFixture rfl rfl 3000 (by decide) (by decide) rfl rfl 2505600000 (by decide)
    (by decide) rfl rfl 600000 (by decide) (by decide) (by decide)
  exact h

/-- C7 counterexample: the claim says a purge count of 101 is rejected locally
before any call to the external API, but src/index.js's `handlePurge` calls
the messages API on count = 101, merely clamping the fetch limit to 100. -/
theorem indexjs_purge_101_calls_api :
    (IndexJs.handlePurge apiStub [] purge101Fixture).calls =
      [⟨"GET", "/channels/c1/messages?limit=100"⟩] := by
  decide

/-- C7 (amended): in part_001's purge handler a count that is falsy (0 or
NaN), below 1, or above 100 is rejected locally with the ephemeral
"Count must be 1-100." message before any REST call, and the boundary counts
1 and 100 proceed to the messages fetch; in src/index.js only a falsy count is
rejected locally ("Missing channel/count."), and a count of 101 is not
rejected — the messages API is called with the fetch limit clamped to 100. -/
theorem purge_count_validation_amended
    (api : Api) (cfg : Config) (icfg : IndexJs.Config) (i i1 i100 i101 : Interaction)
    (hg : jsOptStrTruthy i.guild_id = true) (hc : jsOptStrTruthy i.channel_id = true)
    (hbad : (!(jsNumTruthy (jsNumber (jsOrVal (getOption i "count") (.int 0))))
      || jsNumLt (jsNumber (jsOrVal (getOption i "count") (.int 0))) 1
      || jsNumGt (jsNumber (jsOrVal (getOption i "count") (.int 0))) 100) = true)
    (hg1 : jsOptStrTruthy i1.guild_id = true) (hc1 : jsOptStrTruthy i1.channel_id = true)
    (hv1 : getOption i1 "count" = some (.int 1))
    (hg100 : jsOptStrTruthy i100.guild_id = true)
    (hc100 : jsOptStrTruthy i100.channel_id = true)
    (hv100 : getOption i100 "count" = some (.int 100))
    (hg101 : jsOptStrTruthy i101.guild_id = true)
    (hc101 : jsOptStrTruthy i101.channel_id = true)
    (hv101 : getOption i101 "count" = some (.int 101)) :
    handlePurge api cfg i = ⟨cfg, [], .ok (reply "Count must be 1-100." true)⟩
    ∧ (handlePurge api cfg i1).calls.head? =
        some ⟨"GET", "/channels/" ++ i1.channel_id.getD "" ++ "/messages?limit=" ++
          jsNumToString (some 1)⟩
    ∧ (handlePurge api cfg i100).calls.head? =
        some ⟨"GET", "/channels/" ++ i100.channel_id.getD "" ++ "/messages?limit=" ++
          jsNumToString (some 100)⟩
    ∧ handlePurge api cfg i101 = ⟨cfg, [], .ok (reply "Count must be 1-100." true)⟩
    ∧ (IndexJs.handlePurge api icfg i101).calls.head? =
        some ⟨"GET", "/channels/" ++ i101.channel_id.getD "" ++ "/messages?limit=" ++
          jsNumToString (some 100)⟩ := by
  refine ⟨?_, ?_, ?_, ?_, ?_⟩
  · simp only [handlePurge]
    rw [if_neg (by simp [hg, hc]), if_pos hbad]
  · simp only [handlePurge, hv1]
    repeat' split
    · rename_i h; exact absurd h (by simp [hg1, hc1])
    · rename_i h; exact absurd h (by decide)
    · rfl
    · rfl
    · rfl
    · rfl
  · simp only [handlePurge, hv100]
    repeat' split
    · rename_i h; exact absurd h (by simp [hg100, hc100])
    · rename_i h; exact absurd h (by decide)
    · rfl
    · rfl
    · rfl
    · rfl
  · simp only [handlePurge, hv101]
    rw [if_neg (by simp [hg101, hc101]), if_pos (by decide)]
  · simp only [IndexJs.handlePurge, hv101]
    repeat' split
    · rename_i h
      exact absurd h (by simp [hg101, hc101] <;> decide)
    all_goals rfl

/-- C7 witness: counts 0, 101, and "abc" are rejected locally by part_001's
handler with no REST call; 1 and 100 are accepted and reach the messages
fetch; src/index.js calls the API on count 101 with the limit clamped. -/
theorem purge_count_validation_amended_witness :
    handlePurge apiStub [] purge0Fixture = ⟨[], [], .ok (reply "Count must be 1-100." true)⟩
    ∧ handlePurge apiStub [] purgeAbcFixture =
        ⟨[], [], .ok (reply "Count must be 1-100." true)⟩
    ∧ handlePurge apiStub [] purge101Fixture =
        ⟨[], [], .ok (reply "Count must be 1-100." true)⟩
    ∧ (handlePurge apiStub [] purge1Fixture).calls.head? =
        some ⟨"GET", "/channels/" ++ "c1" ++ "/messages?limit=" ++ jsNumToString (some 1)⟩
    ∧ (handlePurge apiStub [] purge100Fixture).calls.head? =
        some ⟨"GET", "/channels/" ++ "c1" ++ "/messages?limit=" ++ jsNumToString (some 100)⟩
    ∧ (IndexJs.handlePurge apiStub [] purge101Fixture).calls.head? =
        some ⟨"GET", "/channels/" ++ "c1" ++ "/messages?limit=" ++ jsNumToString (some 100)⟩ := by
  have h1 := purge_count_validation_amended apiStub [] [] purge0Fixture purge1Fixture
    purge100Fixture purge101Fixture rfl rfl (by decide) rfl rfl rfl rfl rfl rfl rfl rfl rfl
  have h2 := purge_count_validation_amended apiStub [] [] purgeAbcFixture purge1Fixture
    purge100Fixture purge101Fixture rfl rfl (by decide) rfl rfl rfl rfl rfl rfl rfl rfl rfl
  exact ⟨h1.1, h2.1, h1.2.2.2.1, h1.2.1, h1.2.2.1, h1.2.2.2.2⟩

/-- C4 counterexample: the claim says the server still starts in a degraded
mode on a missing or malformed public key, but src/index.js throws during
module evaluation when the key is not 32 bytes ("abcd" decodes to 2 bytes),
so that process terminates before its HTTP server is created. -/
theorem indexjs_bad_key_crashes_startup :
    IndexJs.startupPublicKey (some ['t']) (some ['a']) (some ['a', 'b', 'c', 'd']) =
      .error "PUBLIC_KEY must be 32 bytes hex" := rfl

/-- C4 (amended): part_001 implements the degraded mode.  With a PUBLIC_KEY
that does not hex-decode to exactly 32 bytes (the missing key being the empty
string), `PUBLIC_KEY_PEM` stays null, GET / still answers 200 and reports
PUBLIC_KEY_ERROR, and every POST /interactions is answered with the 401
signature rejection; src/index.js instead exits or crashes at startup (see
the counterexample). -/
theorem part001_degraded_mode (hex : List Char)
    (hbad : (nodeHexDecode hex).length ≠ 32) :
    part001LoadKey hex = none
    ∧ (∀ cv jsonParse api cfg sig ts body,
        serverRespond none cv jsonParse api cfg ⟨"GET", "/", sig, ts, body⟩ =
          (⟨200, .text "✅ Bot is running.\nStatus: PUBLIC_KEY_ERROR\n"⟩, cfg, []))
    ∧ (∀ cv jsonParse api cfg sig ts body,
        serverRespond none cv jsonParse api cfg ⟨"POST", "/interactions", sig, ts, body⟩ =
          (⟨401, .jsonError "invalid request signature"⟩, cfg, [])) := by
  refine ⟨?_, ?_, ?_⟩
  · unfold part001LoadKey
    split
    · rfl
    · simp only [publicKeyToPemFromHex]
      rw [if_pos hbad]
  · intro cv jsonParse api cfg sig ts body
    rfl
  · intro cv jsonParse api cfg sig ts body
    rfl

/-- C4 witness: the concrete malformed key "abcd" leaves part_001 degraded as
described. -/
theorem part001_degraded_mode_witness :
    part001LoadKey ['a', 'b', 'c', 'd'] = none
    ∧ serverRespond none cvAcceptAll (fun _ => .ok pingFixture) apiStub []
        ⟨"GET", "/", none, none, []⟩ =
      (⟨200, .text "✅ Bot is running.\nStatus: PUBLIC_KEY_ERROR\n"⟩, [], [])
    ∧ serverRespond none cvAcceptAll (fun _ => .ok pingFixture) apiStub []
        ⟨"POST", "/interactions", some ['a'], some [49], [1]⟩ =
      (⟨401, .jsonError "invalid request signature"⟩, [], []) := by
  have h := part001_degraded_mode ['a', 'b', 'c', 'd'] (by decide)
  exact ⟨h.1, h.2.1 cvAcceptAll (fun _ => .ok pingFixture) apiStub [] none none [],
    h.2.2 cvAcceptAll (fun _ => .ok pingFixture) apiStub [] (some ['a']) (some [49]) [1]⟩

/-- C3 counterexample: a request that passes signature verification and whose
body decodes fine, but whose handler throws (the REST oracle answers 403 to
the kick call), is answered with a raw HTTP 500 — so a 500 is not confined to
the decode stage and no 200 error envelope is produced. -/
theorem handler_failure_yields_500_after_decode :
    (routeInteraction apiStub [] kickFixture).result = .error "Discord API 403"
    ∧ (handleInteractionsPost (some pemStub) cvAcceptAll
        (fun _ => .ok kickFixture) apiStub [] (some ['a', 'b']) (some [49]) [123]).1 =
      ⟨500, .jsonError "server error"⟩ := ⟨rfl, rfl⟩

/-- C3 (amended): exceptions never escape either router, but the containment
differs by variant.  In the interactions-endpoint variants a handler exception
after a verified, decoded request is caught by the server's try/catch and
answered with the same generic 500 JSON body as a decode failure — not with a
200 envelope.  In the gateway variant (part_000) the interactionCreate catch
produces exactly one contained reply — an edit of the prior deferred
acknowledgment when one exists, else a fresh ephemeral reply — whose text is
the error message truncated to 1800 characters after the fixed prefix. -/
theorem error_containment_amended :
    (∀ pem cv jsonParse api cfg sig ts raw i e,
      verifyDiscordRequest pem cv sig ts raw = true →
      jsonParse raw = .ok i →
      (routeInteraction api cfg i).result = .error e →
      (handleInteractionsPost pem cv jsonParse api cfg sig ts raw).1 =
        ⟨500, .jsonError "server error"⟩)
    ∧ (∀ deferred msg,
        Gateway.interactionCreate (.error ⟨deferred, msg⟩) =
          some (if deferred then
              Gateway.FinalAction.editReply ("⚠️ Error: " ++ sliceTo 1800 msg)
            else
              Gateway.FinalAction.replyEphemeral ("⚠️ Error: " ++ sliceTo 1800 msg))
        ∧ ("⚠️ Error: " ++ sliceTo 1800 msg).length ≤ "⚠️ Error: ".length + 1800) := by
  constructor
  · intro pem cv jsonParse api cfg sig ts raw i e hv hp hr
    unfold handleInteractionsPost
    rw [if_neg (by simp [hv])]
    simp only [hp]
    rcases hroute : routeInteraction api cfg i with ⟨cfg', calls, res⟩
    rw [hroute] at hr
    have hres : res = Except.error e := hr
    subst hres
    rfl
  · intro deferred msg
    refine ⟨by cases deferred <;> rfl, ?_⟩
    have h1 : (sliceTo 1800 msg).length ≤ 1800 := by
      simp only [sliceTo, String.length_mk, List.length_take]
      omega
    rw [String.length_append]
    omega

/-- C3 witness: a failing ban handler behind a verified request yields the
500 body, and the gateway catch produces the one truncated ephemeral reply. -/
theorem error_containment_amended_witness :
    (handleInteractionsPost (some pemStub) cvAcceptAll (fun _ => .ok banFixture)
        apiStub [] (some ['c', 'd']) (some [50]) [66]).1 =
      ⟨500, .jsonError "server error"⟩
    ∧ Gateway.interactionCreate (.error ⟨false, "boom"⟩) =
        some (.replyEphemeral ("⚠️ Error: " ++ sliceTo 1800 "boom")) := by
  have h := error_containment_amended
  refine ⟨h.1 (some pemStub) cvAcceptAll (fun _ => .ok banFixture) apiStub []
    (some ['c', 'd']) (some [50]) [66] banFixture "Discord API 403" rfl rfl rfl, ?_⟩
  have h2 := (h.2 false "boom").1
  simpa using h2

/-- C6: a non-Ping interaction whose command name matches none of the
registered commands routes to the graceful ephemeral unknown-command envelope
with no REST call and no config change, and through the whole server pipeline
such a verified, decoded request is answered HTTP 200 with that envelope —
never an error status. -/
theorem unknown_command_graceful_fallback
    (api : Api) (cfg : Config) (i : Interaction) (h1 : ¬ i.type = 1)
    (h2 : ∀ s ∈ registeredNames, ¬ i.data.bind InteractionData.name = some s) :
    routeInteraction api cfg i = ⟨cfg, [], .ok (reply "Unknown command. Try `/help`." true)⟩
    ∧ ∀ pem cv jsonParse sig ts raw,
        verifyDiscordRequest pem cv sig ts raw = true →
        jsonParse raw = .ok i →
        handleInteractionsPost pem cv jsonParse api cfg sig ts raw =
          (⟨200, .jsonResponse (reply "Unknown command. Try `/help`." true)⟩, cfg, []) := by
  have hr : routeInteraction api cfg i =
      ⟨cfg, [], .ok (reply "Unknown command. Try `/help`." true)⟩ := by
    unfold routeInteraction
    rw [if_neg h1,
      if_neg (h2 "ping" (by simp [registeredNames])),
      if_neg (h2 "help" (by simp [registeredNames])),
      if_neg (h2 "serverinfo" (by simp [registeredNames])),
      if_neg (h2 "userinfo" (by simp [registeredNames])),
      if_neg (h2 "avatar" (by simp [registeredNames])),
      if_neg (h2 "purge" (by simp [registeredNames])),
      if_neg (h2 "setup" (by simp [registeredNames])),
      if_neg (h2 "kick" (by simp [registeredNames])),
      if_neg (h2 "ban" (by simp [registeredNames])),
      if_neg (h2 "timeout" (by simp [registeredNames])),
      if_neg (h2 "untimeout" (by simp [registeredNames]))]
  refine ⟨hr, ?_⟩
  intro pem cv jsonParse sig ts raw hv hp
  unfold handleInteractionsPost
  rw [if_neg (by simp [hv])]
  simp only [hp, hr]

/-- C6 witness: the unregistered command name "frobnicate" gets the fallback
envelope and a 200 through the pipeline. -/
theorem unknown_command_graceful_fallback_witness :
    routeInteraction apiStub [] unknownFixture =
      ⟨[], [], .ok (reply "Unknown command. Try `/help`." true)⟩
    ∧ handleInteractionsPost (some pemStub) cvAcceptAll (fun _ => .ok unknownFixture)
        apiStub [] (some ['a']) (some [49]) [1] =
      (⟨200, .jsonResponse (reply "Unknown command. Try `/help`." true)⟩, [], []) := by
  have h := unknown_command_graceful_fallback apiStub [] unknownFixture (by decide) (by decide)
  exact ⟨h.1, h.2 (some pemStub) cvAcceptAll (fun _ => .ok unknownFixture)
    (some ['a']) (some [49]) [1] rfl rfl⟩

/-- C1: under the idealized model of Ed25519 — `cv` accepts exactly the value
`sign m` of a collision-free signing function whose signature for this message
is 64 bytes of range — a correct signature over the separator-free byte
concatenation `timestamp ++ body` verifies, and changing any single byte of
the timestamp, of the body, or of the signature bytes makes
`verifyDiscordRequest` (and the identical src/index.js verifier) return
false. -/
theorem verify_accepts_correct_and_rejects_mutation
    (k : PemKey) (cv : PemKey → List Nat → List Nat → Bool)
    (sign : List Nat → List Nat)
    (hcv : ∀ m s, cv k m s = true ↔ s = sign m)
    (hinj : ∀ m m', sign m = sign m' → m = m')
    (ts body : List Nat) (hts : ts ≠ [])
    (hlen : (sign (ts ++ body)).length = 64)
    (hbytes : ∀ b ∈ sign (ts ++ body), b < 256) :
    verifyDiscordRequest (some k) cv (some (hexEncode (sign (ts ++ body))))
      (some ts) body = true
    ∧ IndexJs.verifyDiscordRequest k cv (some (hexEncode (sign (ts ++ body))))
      (some ts) body = true
    ∧ (∀ i b, ∀ hi : i < ts.length, b ≠ ts[i] →
        verifyDiscordRequest (some k) cv (some (hexEncode (sign (ts ++ body))))
          (some (ts.set i b)) body = false)
    ∧ (∀ i b, ∀ hi : i < body.length, b ≠ body[i] →
        verifyDiscordRequest (some k) cv (some (hexEncode (sign (ts ++ body))))
          (some ts) (body.set i b) = false)
    ∧ (∀ i b, ∀ hi : i < (sign (ts ++ body)).length,
        b ≠ (sign (ts ++ body))[i] → b < 256 →
        verifyDiscordRequest (some k) cv
          (some (hexEncode ((sign (ts ++ body)).set i b))) (some ts) body = false) := by
  have hsne : sign (ts ++ body) ≠ [] := by
    intro h
    rw [h] at hlen
    simp at hlen
  have henc := hexEncode_ne_nil hsne
  have hdec := nodeHexDecode_hexEncode (sign (ts ++ body)) hbytes
  refine ⟨?_, ?_, ?_, ?_, ?_⟩
  · simp only [verifyDiscordRequest]
    rw [if_neg (by simp [henc, hts]), hdec]
    exact (hcv _ _).2 rfl
  · simp only [IndexJs.verifyDiscordRequest]
    rw [if_neg (by simp [henc, hts]), hdec]
    exact (hcv _ _).2 rfl
  · intro i b hi hb
    have hts' : ts.set i b ≠ [] := set_ne_nil_of_lt hi
    simp only [verifyDiscordRequest]
    rw [if_neg (by simp [henc, hts']), hdec]
    cases hc : cv k (ts.set i b ++ body) (sign (ts ++ body)) with
    | false => rfl
    | true =>
        exfalso
        have h1 := (hcv _ _).1 hc
        have h2 := hinj _ _ h1
        have h3 : ts = ts.set i b := List.append_cancel_right h2
        exact set_ne_of_getElem_ne hi hb h3.symm
  · intro i b hi hb
    simp only [verifyDiscordRequest]
    rw [if_neg (by simp [henc, hts]), hdec]
    cases hc : cv k (ts ++ body.set i b) (sign (ts ++ body)) with
    | false => rfl
    | true =>
        exfalso
        have h1 := (hcv _ _).1 hc
        have h2 := hinj _ _ h1
        have h3 : body = body.set i b := List.append_cancel_left h2
        exact set_ne_of_getElem_ne hi hb h3.symm
  · intro i b hi hb hb256
    have hsb := set_bytes_bound i hbytes hb256
    have hset_ne : (sign (ts ++ body)).set i b ≠ sign (ts ++ body) :=
      set_ne_of_getElem_ne hi hb
    have hset_nil : (sign (ts ++ body)).set i b ≠ [] := set_ne_nil_of_lt hi
    have hdec' := nodeHexDecode_hexEncode ((sign (ts ++ body)).set i b) hsb
    simp only [verifyDiscordRequest]
    rw [if_neg (by simp [hexEncode_ne_nil hset_nil, hts]), hdec']
    cases hc : cv k (ts ++ body) ((sign (ts ++ body)).set i b) with
    | false => rfl
    | true => exact absurd ((hcv _ _).1 hc) hset_ne

/-- C1 witness: a toy collision-free signer (the identity on the 64-byte
message) instantiates the theorem on concrete bytes. -/
theorem verify_accepts_correct_and_rejects_mutation_witness :
    verifyDiscordRequest (some pemStub) (fun _ m s => s == m)
      (some (hexEncode ([1, 2, 3, 4] ++ List.replicate 60 5)))
      (some [1, 2, 3, 4]) (List.replicate 60 5) = true
    ∧ IndexJs.verifyDiscordRequest pemStub (fun _ m s => s == m)
      (some (hexEncode ([1, 2, 3, 4] ++ List.replicate 60 5)))
      (some [1, 2, 3, 4]) (List.replicate 60 5) = true
    ∧ (∀ i b, ∀ hi : i < ([1, 2, 3, 4] : List Nat).length, b ≠ ([1, 2, 3, 4] : List Nat)[i] →
        verifyDiscordRequest (some pemStub) (fun _ m s => s == m)
          (some (hexEncode ([1, 2, 3, 4] ++ List.replicate 60 5)))
          (some (([1, 2, 3, 4] : List Nat).set i b)) (List.replicate 60 5) = false)
    ∧ (∀ i b, ∀ hi : i < (List.replicate 60 5 : List Nat).length,
        b ≠ (List.replicate 60 5 : List Nat)[i] →
        verifyDiscordRequest (some pemStub) (fun _ m s => s == m)
          (some (hexEncode ([1, 2, 3, 4] ++ List.replicate 60 5)))
          (some [1, 2, 3, 4]) ((List.replicate 60 5 : List Nat).set i b) = false)
    ∧ (∀ i b, ∀ hi : i < ([1, 2, 3, 4] ++ List.replicate 60 5 : List Nat).length,
        b ≠ ([1, 2, 3, 4] ++ List.replicate 60 5 : List Nat)[i] → b < 256 →
        verifyDiscordRequest (some pemStub) (fun _ m s => s == m)
          (some (hexEncode (([1, 2, 3, 4] ++ List.replicate 60 5 : List Nat).set i b)))
          (some [1, 2, 3, 4]) (List.replicate 60 5) = false) := by
  exact verify_accepts_correct_and_rejects_mutation pemStub (fun _ m s => s == m)
    (fun m => m) (fun m s => by simp) (fun m m' h => h) [1, 2, 3, 4] (List.replicate 60 5)
    (by decide) (by decide) (by decide)

/-- C2 counterexample: "verify returns false when the signature is non-hex"
fails on the code.  Node's hex decoding truncates at the first invalid
character, so a correct 128-hex-character signature with "zz" appended is not
a hex string yet still decodes to the correct 64 signature bytes, and
verification succeeds. -/
theorem verify_nonhex_truncation_accepts :
    hexDigitVal 'z' = none
    ∧ (nodeHexDecode (hexEncode ([1] ++ List.replicate 63 2) ++ ['z', 'z'])).length = 64
    ∧ verifyDiscordRequest (some pemStub) (fun _ m s => s == m)
        (some (hexEncode ([1] ++ List.replicate 63 2) ++ ['z', 'z']))
        (some [1]) (List.replicate 63 2) = true := by
  refine ⟨rfl, by decide, by decide⟩

/-- C2 (amended): `verifyDiscordRequest` is a total function (never throws)
and returns false when the public key failed to load, when either header is
missing or empty, when the signature hex-decodes (with Node's
truncate-at-first-invalid-character semantics) to anything but 64 bytes —
which covers the empty, wrong-length, and almost all non-hex signatures —
and when cryptographic verification fails; a non-hex signature whose valid
prefix decodes to the correct 64 bytes is the one exception (see the
counterexample). -/
theorem verify_false_on_failure_modes
    (k : PemKey) (cv : PemKey → List Nat → List Nat → Bool)
    (hcv64 : ∀ m s, s.length ≠ 64 → cv k m s = false) :
    (∀ cv2 sig ts raw, verifyDiscordRequest none cv2 sig ts raw = false)
    ∧ (∀ ts raw, verifyDiscordRequest (some k) cv none ts raw = false)
    ∧ (∀ sig raw, verifyDiscordRequest (some k) cv sig none raw = false)
    ∧ (∀ ts raw, verifyDiscordRequest (some k) cv (some []) ts raw = false)
    ∧ (∀ sig raw, verifyDiscordRequest (some k) cv (some sig) (some []) raw = false)
    ∧ (∀ sig ts raw, (nodeHexDecode sig).length ≠ 64 →
        verifyDiscordRequest (some k) cv (some sig) (some ts) raw = false)
    ∧ (∀ sig ts raw, cv k (ts ++ raw) (nodeHexDecode sig) = false →
        verifyDiscordRequest (some k) cv (some sig) (some ts) raw = false) := by
  refine ⟨?_, ?_, ?_, ?_, ?_, ?_, ?_⟩
  · intro cv2 sig ts raw
    rfl
  · intro ts raw
    cases ts <;> rfl
  · intro sig raw
    cases sig <;> rfl
  · intro ts raw
    cases ts with
    | none => rfl
    | some t =>
        simp only [verifyDiscordRequest]
        rw [if_pos (Or.inl trivial)]
  · intro sig raw
    simp only [verifyDiscordRequest]
    rw [if_pos (Or.inr trivial)]
  · intro sig ts raw h
    simp only [verifyDiscordRequest]
    by_cases hc : sig = [] ∨ ts = []
    · rw [if_pos hc]
    · rw [if_neg hc]
      exact hcv64 _ _ h
  · intro sig ts raw h
    simp only [verifyDiscordRequest]
    by_cases hc : sig = [] ∨ ts = []
    · rw [if_pos hc]
    · rw [if_neg hc]
      exact h

/-- C2 witness: every rejection clause at concrete inputs, under a crypto
oracle satisfying the Ed25519 signature-length property. -/
theorem verify_false_on_failure_modes_witness :
    verifyDiscordRequest none cvAcceptAll (some ['a']) (some [49]) [1] = false
    ∧ verifyDiscordRequest (some pemStub) (fun _ m s => (s.length == 64) && (s == m))
        none (some [49]) [1] = false
    ∧ verifyDiscordRequest (some pemStub) (fun _ m s => (s.length == 64) && (s == m))
        (some ['a']) none [1] = false
    ∧ verifyDiscordRequest (some pemStub) (fun _ m s => (s.length == 64) && (s == m))
        (some []) (some [49]) [1] = false
    ∧ verifyDiscordRequest (some pemStub) (fun _ m s => (s.length == 64) && (s == m))
        (some ['a', 'b']) (some []) [1] = false
    ∧ verifyDiscordRequest (some pemStub) (fun _ m s => (s.length == 64) && (s == m))
        (some ['z', 'z']) (some [49]) [1] = false
    ∧ verifyDiscordRequest (some pemStub) (fun _ m s => (s.length == 64) && (s == m))
        (some ['a', 'b']) (some [49]) [1] = false := by
  have h := verify_false_on_failure_modes pemStub
    (fun _ m s => (s.length == 64) && (s == m))
    (fun m s hlen => by simp [beq_eq_false_iff_ne.2 hlen])
  exact ⟨h.1 cvAcceptAll (some ['a']) (some [49]) [1],
    h.2.1 (some [49]) [1],
    h.2.2.1 (some ['a']) [1],
    h.2.2.2.1 (some [49]) [1],
    h.2.2.2.2.1 ['a', 'b'] [1],
    h.2.2.2.2.2.1 ['z', 'z'] [49] [1] (by decide),
    h.2.2.2.2.2.2 ['a', 'b'] [49] [1] (by decide)⟩

/-- C10 counterexample: "the parser accepts any string containing at least one
digit+unit token" fails — "0m!!!" contains the token `0m` (the scan finds it),
yet the zero total makes the parser return null. -/
theorem duration_token_zero_rejected :
    durationTokens (jsToLower (jsTrim "0m!!!".data)) = [(0, 'm')]
    ∧ parseDurationToMs (some (.str "0m!!!")) = none := ⟨by decide, by decide⟩

/-- C10 (amended): surrounding unrecognized characters never cause rejection —
whole-string validity is not checked.  Any string of the form
`pre ++ digits ++ unit ++ post`, where pre and post contain no digit, no
whitespace, and no unit letter (case-insensitively), parses to exactly the
millisecond value of its one token, provided that value is positive (a
zero-magnitude token alone still parses to null, see the counterexample). -/
theorem duration_ignores_surrounding_garbage
    (pre post ds : List Char) (u : Char)
    (hpre : ∀ c ∈ pre, unrecognizedChar (charToLower c) = true ∧ isSpaceChar c = false)
    (hpost : ∀ c ∈ post, unrecognizedChar (charToLower c) = true ∧ isSpaceChar c = false)
    (hds : ds ≠ []) (hdsd : ∀ c ∈ ds, isDigitChar c = true)
    (hu : isUnitChar u = true) (hpos : 0 < digitsVal ds) :
    parseDurationToMs (some (.str (String.mk (pre ++ ds ++ u :: post)))) =
      some (digitsVal ds * unitFactorMs u) := by
  obtain ⟨d, rest, rfl⟩ : ∃ d rest, ds = d :: rest := by
    cases ds with
    | nil => exact absurd rfl hds
    | cons d rest => exact ⟨d, rest, rfl⟩
  have hnospace : ∀ c ∈ pre ++ (d :: rest) ++ u :: post, isSpaceChar c = false := by
    intro c hc
    rcases List.mem_append.mp hc with h1 | h2
    · rcases List.mem_append.mp h1 with h3 | h4
      · exact (hpre c h3).2
      · exact digit_not_space (hdsd c h4)
    · rcases List.mem_cons.mp h2 with rfl | h5
      · exact unit_not_space hu
      · exact (hpost c h5).2
  have htrim : jsTrim (pre ++ (d :: rest) ++ u :: post) = pre ++ (d :: rest) ++ u :: post :=
    jsTrim_eq_self _ hnospace
  have hds_lower : List.map charToLower (d :: rest) = d :: rest :=
    jsToLower_fixes (d :: rest) (fun c hc => charToLower_digit (hdsd c hc))
  have hu_lower : charToLower u = u := charToLower_unit hu
  have hlower : jsToLower (pre ++ (d :: rest) ++ u :: post) =
      List.map charToLower pre ++ (d :: rest) ++ u :: List.map charToLower post := by
    simp only [jsToLower, List.map_append, List.map_cons]
    rw [hu_lower]
    have hmap := hds_lower
    simp only [List.map_cons] at hmap
    rw [hmap]
  have hd := hdsd d (by simp)
  have hscan : durationTokens
      (List.map charToLower pre ++ (d :: rest) ++ u :: List.map charToLower post) =
      [(digitsVal (d :: rest), u)] := by
    unfold durationTokens
    rw [List.foldl_append, List.foldl_append,
      foldl_scanStep_unrecognized _ (fun c hc => by
        rcases List.mem_map.mp hc with ⟨a, ha, rfl⟩
        exact (hpre a ha).1) []]
    have h2 : List.foldl scanStep ([], ScanState.idle) (d :: rest) =
        ([], .digits (digitsVal (d :: rest))) := by
      rw [List.foldl_cons]
      have hstep : scanStep ([], ScanState.idle) d = ([], .digits (digitVal d)) := by
        simp [scanStep, hd]
      rw [hstep, foldl_scanStep_digits rest (fun c hc => hdsd c (by simp [hc])) [] (digitVal d)]
      unfold digitsVal
      simp
    rw [h2, List.foldl_cons]
    have hstepu : scanStep ([], ScanState.digits (digitsVal (d :: rest))) u =
        ([(digitsVal (d :: rest), u)], .idle) := by
      simp [scanStep, unit_not_digit hu, unit_not_space hu, hu]
    rw [hstepu,
      foldl_scanStep_unrecognized _ (fun c hc => by
        rcases List.mem_map.mp hc with ⟨a, ha, rfl⟩
        exact (hpost a ha).1) [(digitsVal (d :: rest), u)]]
  have htruthy : jsTruthy (.str (String.mk (pre ++ (d :: rest) ++ u :: post))) = true := by
    simp only [jsTruthy, Bool.not_eq_true']
    rw [beq_eq_false_iff_ne]
    intro hcon
    have hdata := congrArg String.data hcon
    simp at hdata
  have hval : jsOrVal (some (.str (String.mk (pre ++ (d :: rest) ++ u :: post)))) (.str "") =
      .str (String.mk (pre ++ (d :: rest) ++ u :: post)) := by
    show (if jsTruthy (.str (String.mk (pre ++ (d :: rest) ++ u :: post))) = true
        then JsVal.str (String.mk (pre ++ (d :: rest) ++ u :: post)) else .str "") = _
    rw [htruthy, if_pos rfl]
  simp only [parseDurationToMs, hval]
  have hdata : (jsValToString (.str (String.mk (pre ++ (d :: rest) ++ u :: post)))).data =
      pre ++ (d :: rest) ++ u :: post := rfl
  rw [hdata, htrim, hlower, hscan]
  split
  · rename_i hcond
    exfalso
    rcases hcond with h | h
    · simp at h
    · have hmul := Nat.mul_pos hpos (unitFactorMs_pos u)
      have hfold : List.foldl (fun acc t => acc + t.1 * unitFactorMs t.2) 0
          [(digitsVal (d :: rest), u)] = digitsVal (d :: rest) * unitFactorMs u := by
        simp
      rw [hfold] at h
      omega
  · simp

/-- C10 witness: "abc5m" and "5m!!!" both parse to 5 minutes (300000 ms),
the surrounding characters being ignored. -/
theorem duration_ignores_surrounding_garbage_witness :
    parseDurationToMs (some (.str (String.mk ['a', 'b', 'c', '5', 'm']))) =
      some (digitsVal ['5'] * unitFactorMs 'm')
    ∧ parseDurationToMs (some (.str (String.mk ['5', 'm', '!', '!', '!']))) =
      some (digitsVal ['5'] * unitFactorMs 'm')
    ∧ String.mk ['a', 'b', 'c', '5', 'm'] = "abc5m"
    ∧ String.mk ['5', 'm', '!', '!', '!'] = "5m!!!"
    ∧ digitsVal ['5'] * unitFactorMs 'm' = 300000 := by
  refine ⟨?_, ?_, rfl, rfl, by decide⟩
  · exact duration_ignores_surrounding_garbage ['a', 'b', 'c'] [] ['5'] 'm'
      (by decide) (by decide) (by decide) (by decide) (by decide) (by decide)
  · exact duration_ignores_surrounding_garbage [] ['!', '!', '!'] ['5'] 'm'
      (by decide) (by decide) (by decide) (by decide) (by decide) (by decide)
